import Mathlib

/-
  Verification of the dormitory distance-scoring pipeline (src/dormitory.py).

  Floats are modelled as rationals (every Python float literal and every value
  the claims probe is rational); pandas missing values (pd.NA / NaN) are
  modelled explicitly.  The external collaborators (HTTP transport, the
  haversine library, the Streamlit cache) are modelled by their documented
  semantics and the spec's description, as noted on each definition.
-/

namespace Dormitory

/-- A pandas scalar as seen by `assign_score`: `pd.NA` (absent), a float NaN,
or an ordinary numeric value (floats modelled as rationals). -/
inductive PdScalar : Type
  | na : PdScalar
  | nan : PdScalar
  | val (q : ℚ) : PdScalar
deriving DecidableEq

/-- Lines 46-59 of src/dormitory.py: `assign_score(distance)`.
`pd.isna` is true exactly on `na` and `nan`; otherwise the threshold chain
`>= 400 / >= 300 / >= 200 / >= 100` is evaluated top down. -/
def assign_score : PdScalar → ℤ
  | .na => 0
  | .nan => 0
  | .val d =>
    if 400 ≤ d then 70
    else if 300 ≤ d then 50
    else if 200 ≤ d then 30
    else if 100 ≤ d then 10
    else 0

/-- Python `str(...)` applied to an address cell: a missing cell is a float
NaN in pandas, and `str(float("nan"))` is the three-letter string "nan";
a present string cell prints as itself. -/
def pyStr : Option String → String
  | none => "nan"
  | some s => s

/-- Python `.strip()`: drop leading and trailing whitespace characters. -/
def pythonStrip (s : String) : String :=
  ⟨((s.data.dropWhile Char.isWhitespace).reverse.dropWhile Char.isWhitespace).reverse⟩

/-- Python `.split(",")[0]`: the characters before the first comma (the
whole string when it has no comma; `"".split(",")[0]` is `""`). -/
def beforeComma (s : String) : String :=
  ⟨s.data.takeWhile (fun c => c != ',')⟩

/-- Lines 96-98 of src/dormitory.py:
`address_to_search = str(row.get(col, "")).split(",")[0].strip()` —
the text before the first comma, trimmed of surrounding whitespace. -/
def address_to_search (cell : Option String) : String :=
  pythonStrip (beforeComma (pyStr cell))

/-- The `address` object inside a Kakao geocoder document: numeric fields
`y` (latitude) and `x` (longitude), either of which may be missing. -/
structure KakaoAddress : Type where
  y : Option ℚ
  x : Option ℚ
deriving DecidableEq

/-- One element of the geocoder's `documents` array; its `address` object
may be missing or null. -/
structure KakaoDoc : Type where
  address : Option KakaoAddress
deriving DecidableEq

/-- The JSON body of a 2xx geocoder response; the `documents` key itself may
be absent (`json_result.get("documents")` then yields Python `None`). -/
structure KakaoResponse : Type where
  documents : Option (List KakaoDoc)
deriving DecidableEq

/-- What one HTTP round-trip can produce: a `requests` exception
(transport error, timeout, or a non-2xx status raised by
`raise_for_status`) carrying its message, or a 2xx response body. -/
inductive HttpResult : Type
  | failure (msg : String) : HttpResult
  | success (resp : KakaoResponse) : HttpResult
deriving DecidableEq

/-- The triple `(lat, lon, error_message)` returned by the geocoding
function: each component mirrors one Python return value. -/
abbrev GeoTriple := Option ℚ × Option ℚ × Option String

/-- Lines 15-37 of src/dormitory.py: `get_lat_lon_from_address`, as a
function of the HTTP outcome for the queried address.
A `requests` exception gives the network-failure message; a falsy
`documents` (absent key or empty list) gives "주소를 찾을 수 없음"; a
first document missing `address`, `y` or `x` raises
KeyError/TypeError, caught as "잘못된 API 응답 형식"; otherwise the first
document's coordinates are returned with error `None`. -/
def get_lat_lon_from_address : HttpResult → GeoTriple
  | .failure e => (none, none, some ("API 요청 실패: " ++ e))
  | .success resp =>
    match resp.documents with
    | none => (none, none, some "주소를 찾을 수 없음")
    | some [] => (none, none, some "주소를 찾을 수 없음")
    | some (d :: _) =>
      match d.address with
      | none => (none, none, some "잘못된 API 응답 형식")
      | some a =>
        match a.y, a.x with
        | some yv, some xv => (some yv, some xv, none)
        | some _, none => (none, none, some "잘못된 API 응답 형식")
        | none, _ => (none, none, some "잘못된 API 응답 형식")

/-- Line 41 of src/dormitory.py: the fixed school reference coordinate. -/
def school_coords : ℚ × ℚ := (37.4973462, 126.8640144)

/-- Lines 39-44 of src/dormitory.py: `calculate_distance_from_school`,
generic in the two-point distance function `hav` supplied by the external
haversine library.  The guard is Python truthiness,
`if lat_lon and all(lat_lon)`: the argument tuple is always truthy, and
`all` demands every component be neither `None` nor `0.0`; any other
input yields `None`. -/
def calculate_distance_from_school {α : Type} (hav : ℚ × ℚ → ℚ × ℚ → α) :
    Option (Option ℚ × Option ℚ) → Option α
  | some (some la, some lo) =>
    if la ≠ 0 ∧ lo ≠ 0 then some (hav school_coords (la, lo)) else none
  | some (some _, none) => none
  | some (none, _) => none
  | none => none

/-- Modelled from the spec: the external haversine library used at line 43 —
"great-circle distance in kilometers using the standard haversine formula
(spherical Earth, mean radius ≈ 6371 km)". -/
noncomputable def haversineKm (p q : ℚ × ℚ) : ℝ :=
  let rad : ℚ → ℝ := fun d => (d : ℝ) * Real.pi / 180
  let h :=
    Real.sin ((rad q.1 - rad p.1) / 2) ^ 2 +
      Real.cos (rad p.1) * Real.cos (rad q.1) * Real.sin ((rad q.2 - rad p.2) / 2) ^ 2
  2 * 6371 * Real.arcsin (Real.sqrt h)

/-- The memo table behind `@st.cache_data` (line 14): Streamlit keys its
cache on the full tuple of function arguments, here `(address, rest_api_key)`. -/
abbrev Cache := List ((String × String) × GeoTriple)

/-- Lookup in the Streamlit memo table, keyed by both arguments. -/
def cacheLookup (a k : String) : Cache → Option GeoTriple
  | [] => none
  | (p, v) :: rest => if p = (a, k) then some v else cacheLookup a k rest

/-- Models one call through the `@st.cache_data` wrapper (line 14): a hit on
the `(address, key)` pair returns the memoized triple with no network
traffic; a miss runs the wrapped function against the network and stores
its result.  Returns (triple, new cache, number of network requests made). -/
def cachedGeocode (net : String → String → GeoTriple) (a k : String) (c : Cache) :
    GeoTriple × Cache × ℕ :=
  match cacheLookup a k c with
  | some v => (v, c, 0)
  | none => (net a k, ((a, k), net a k) :: c, 1)

/-- Python truthiness of the `error_message` value at line 103: `None` and
the empty string are falsy, every other string is truthy. -/
def strTruthy : Option String → Bool
  | none => false
  | some s => !s.isEmpty

/-- One row of the result table just after the loop of lines 95-117:
the columns 위도, 경도, 계산된 거리 (km), 오류 메시지. -/
structure RowResult : Type where
  lat : Option ℚ
  lon : Option ℚ
  dist : Option ℚ
  err : String
deriving DecidableEq

/-- Lines 95-112 of src/dormitory.py, the body of the row loop: normalize
the cell; an empty search string records "주소 정보 없음" and touches
neither the network nor the cache; otherwise geocode through the cache,
recording the error message on failure and the coordinates plus computed
distance on success.  Returns (row, new cache, network requests made). -/
def rowStep (net : String → String → GeoTriple) (hav : ℚ × ℚ → ℚ × ℚ → ℚ)
    (key : String) (c : Cache) (cell : Option String) : RowResult × Cache × ℕ :=
  let addr := address_to_search cell
  if addr = "" then
    ({ lat := none, lon := none, dist := none, err := "주소 정보 없음" }, c, 0)
  else
    let g := cachedGeocode net addr key c
    if strTruthy g.1.2.2 then
      ({ lat := none, lon := none, dist := none, err := g.1.2.2.getD "" }, g.2.1, g.2.2)
    else
      ({ lat := g.1.1, lon := g.1.2.1,
         dist := calculate_distance_from_school hav (some (g.1.1, g.1.2.1)),
         err := "" }, g.2.1, g.2.2)

/-- The result a row gets when its geocoding is answered directly by the
network function (equivalently, by any cache that is consistent with it). -/
def pureRow (net : String → String → GeoTriple) (hav : ℚ × ℚ → ℚ × ℚ → ℚ)
    (key : String) (cell : Option String) : RowResult :=
  (rowStep net hav key [] cell).1

/-- Lines 95-117 of src/dormitory.py: the whole row loop.  `i` is the
running row index and `total` the row count; after each row one progress
event `(i + 1, total)` is emitted (lines 115-117).  Returns
(rows, progress events, final cache, total network requests). -/
def rowsLoop (net : String → String → GeoTriple) (hav : ℚ × ℚ → ℚ × ℚ → ℚ)
    (key : String) (total : ℕ) :
    List (Option String) → ℕ → Cache → List RowResult × List (ℕ × ℕ) × Cache × ℕ
  | [], _, c => ([], [], c, 0)
  | cell :: rest, i, c =>
    let s := rowStep net hav key c cell
    let t := rowsLoop net hav key total rest (i + 1) s.2.1
    (s.1 :: t.1, (i + 1, total) :: t.2.1, t.2.2.1, s.2.2 + t.2.2.2)

/-- How a cell of the 계산된 거리 (km) column reaches `pd.isna`: an
untouched cell is `pd.NA`, a filled cell is a number. -/
def toScalar : Option ℚ → PdScalar
  | none => .na
  | some q => .val q

/-- One row of the final table: the loop columns plus the 배점 column. -/
structure OutRow : Type where
  lat : Option ℚ
  lon : Option ℚ
  dist : Option ℚ
  score : ℤ
  err : String
deriving DecidableEq

/-- Line 121 of src/dormitory.py:
`df["배점"] = df["계산된 거리 (km)"].apply(assign_score)` — the score is
computed from the distance column as it stands after the loop. -/
def scoreRow (r : RowResult) : OutRow :=
  { lat := r.lat, lon := r.lon, dist := r.dist,
    score := assign_score (toScalar r.dist), err := r.err }

/-- Rounding a rational to 4 decimal places, as
`pd.to_numeric(...).round(4)` does at line 132 (tie-breaking is irrelevant
to every claim below). -/
def round4 (q : ℚ) : ℚ := (round (q * 10000) : ℤ) / 10000

/-- Lines 130-132 of src/dormitory.py: the numeric columns 위도, 경도 and
계산된 거리 (km) are rounded to 4 decimals; 배점 and 오류 메시지 are not
touched. -/
def roundRow (r : OutRow) : OutRow :=
  { r with lat := r.lat.map round4, lon := r.lon.map round4, dist := r.dist.map round4 }

/-- Lines 73-132 of src/dormitory.py, the pipeline around the loop.
`st.text_input` always yields a string, so an absent credential is the
empty string and `if not rest_api_key` aborts the run (lines 74-75) before
any row is touched.  Otherwise the loop runs from an empty cache, the
score column is computed from the unrounded distances (line 121), and the
numeric columns are rounded afterwards (lines 130-132).  Returns
(table or pipeline error, progress events, total network requests). -/
def runPipeline (net : String → String → GeoTriple) (hav : ℚ × ℚ → ℚ × ℚ → ℚ)
    (key : String) (rows : List (Option String)) :
    Except String (List OutRow) × List (ℕ × ℕ) × ℕ :=
  if key = "" then (.error "API 키를 먼저 입력해야 합니다.", [], 0)
  else
    let t := rowsLoop net hav key rows.length rows 0 []
    (.ok ((t.1.map scoreRow).map roundRow), t.2.1, t.2.2.2)

/-- A cache is consistent with the network function when every stored entry
is what the network returns for its key. -/
def CacheSound (net : String → String → GeoTriple) (c : Cache) : Prop :=
  ∀ p ∈ c, p.2 = net p.1.1 p.1.2

lemma cacheSound_nil (net : String → String → GeoTriple) : CacheSound net [] := by
  intro p hp
  simp at hp

lemma cacheLookup_mem {a k : String} {c : Cache} {v : GeoTriple}
    (h : cacheLookup a k c = some v) : ((a, k), v) ∈ c := by
  induction c with
  | nil => simp [cacheLookup] at h
  | cons e rest ih =>
    match e with
    | (p, w) =>
      by_cases hp : p = (a, k)
      · subst hp
        simp [cacheLookup] at h
        subst h
        exact List.mem_cons_self _ _
      · simp [cacheLookup, hp] at h
        exact List.mem_cons_of_mem _ (ih h)

lemma cachedGeocode_fst (net : String → String → GeoTriple) (a k : String)
    {c : Cache} (h : CacheSound net c) : (cachedGeocode net a k c).1 = net a k := by
  unfold cachedGeocode
  cases hl : cacheLookup a k c with
  | none => rfl
  | some v => simpa using h _ (cacheLookup_mem hl)

lemma cachedGeocode_sound (net : String → String → GeoTriple) (a k : String)
    {c : Cache} (h : CacheSound net c) : CacheSound net (cachedGeocode net a k c).2.1 := by
  unfold cachedGeocode
  cases hl : cacheLookup a k c with
  | none =>
    intro p hp
    rcases List.mem_cons.mp hp with h1 | h2
    · subst h1; rfl
    · exact h _ h2
  | some v => exact h

lemma rowStep_fst (net : String → String → GeoTriple) (hav : ℚ × ℚ → ℚ × ℚ → ℚ)
    (key : String) {c : Cache} (h : CacheSound net c) (cell : Option String) :
    (rowStep net hav key c cell).1 = pureRow net hav key cell := by
  unfold pureRow rowStep
  by_cases ha : address_to_search cell = ""
  · simp [ha]
  · simp only [ha, if_neg, ite_false]
    rw [cachedGeocode_fst net _ key h, cachedGeocode_fst net _ key (cacheSound_nil net)]
    by_cases hg : strTruthy (net (address_to_search cell) key).2.2 <;> simp [hg]

lemma rowStep_sound (net : String → String → GeoTriple) (hav : ℚ × ℚ → ℚ × ℚ → ℚ)
    (key : String) {c : Cache} (h : CacheSound net c) (cell : Option String) :
    CacheSound net (rowStep net hav key c cell).2.1 := by
  unfold rowStep
  by_cases ha : address_to_search cell = ""
  · simpa [ha] using h
  · have hs := cachedGeocode_sound net (address_to_search cell) key h
    by_cases hg : strTruthy (cachedGeocode net (address_to_search cell) key c).1.2.2
    · simpa [ha, hg] using hs
    · simpa [ha, hg] using hs

lemma rowsLoop_spec (net : String → String → GeoTriple) (hav : ℚ × ℚ → ℚ × ℚ → ℚ)
    (key : String) (total : ℕ) :
    ∀ (cells : List (Option String)) (i : ℕ) (c : Cache), CacheSound net c →
      (rowsLoop net hav key total cells i c).1 = cells.map (pureRow net hav key) ∧
      (rowsLoop net hav key total cells i c).2.1 =
        (List.range cells.length).map (fun j => (i + j + 1, total)) := by
  intro cells
  induction cells with
  | nil => intro i c _; simp [rowsLoop]
  | cons cell rest ih =>
    intro i c h
    have h1 := rowStep_fst net hav key h cell
    have h2 := rowStep_sound net hav key h cell
    obtain ⟨hr, he⟩ := ih (i + 1) _ h2
    constructor
    · simp only [rowsLoop, List.map_cons]
      rw [h1, hr]
    · simp only [rowsLoop, List.length_cons, List.range_succ_eq_map, List.map_cons,
        List.map_map]
      rw [he]
      refine List.cons_eq_cons.mpr ⟨by simp, List.map_congr_left ?_⟩
      intro j _
      simp only [Function.comp_apply]
      congr 1
      omega

/-- A network stub that always resolves, used to instantiate theorems at
closed inputs. -/
def net0 : String → String → GeoTriple := fun _ _ => (some 37, some 127, none)

/-- A network stub that always fails, used to instantiate theorems at
closed inputs. -/
def netF : String → String → GeoTriple := fun _ _ => (none, none, some "API 요청 실패: timeout")

/-- A distance stub used to instantiate theorems at closed inputs. -/
def hav0 : ℚ × ℚ → ℚ × ℚ → ℚ := fun _ _ => 450

/-- C1: `assign_score` maps a distance d to 70 when d ≥ 400, to 50 when
300 ≤ d < 400, to 30 when 200 ≤ d < 300, to 10 when 100 ≤ d < 200, and to
0 when d < 100 or the input is absent (pd.NA) or NaN; it is total by
construction (a Lean function on all of `PdScalar`) and non-decreasing in
the numeric argument. -/
theorem C1_assign_score_bands_monotone :
    (∀ d : ℚ, 400 ≤ d → assign_score (.val d) = 70) ∧
    (∀ d : ℚ, 300 ≤ d → d < 400 → assign_score (.val d) = 50) ∧
    (∀ d : ℚ, 200 ≤ d → d < 300 → assign_score (.val d) = 30) ∧
    (∀ d : ℚ, 100 ≤ d → d < 200 → assign_score (.val d) = 10) ∧
    (∀ d : ℚ, d < 100 → assign_score (.val d) = 0) ∧
    assign_score .na = 0 ∧ assign_score .nan = 0 ∧
    (∀ d e : ℚ, d ≤ e → assign_score (.val d) ≤ assign_score (.val e)) := by
  refine ⟨?_, ?_, ?_, ?_, ?_, rfl, rfl, ?_⟩
  · intro d h
    simp only [assign_score]
    rw [if_pos h]
  · intro d h1 h2
    simp only [assign_score]
    rw [if_neg (by linarith), if_pos h1]
  · intro d h1 h2
    simp only [assign_score]
    rw [if_neg (by linarith), if_neg (by linarith), if_pos h1]
  · intro d h1 h2
    simp only [assign_score]
    rw [if_neg (by linarith), if_neg (by linarith), if_neg (by linarith), if_pos h1]
  · intro d h
    simp only [assign_score]
    rw [if_neg (by linarith), if_neg (by linarith), if_neg (by linarith), if_neg (by linarith)]
  · intro d e h
    simp only [assign_score]
    split_ifs <;> first | (exfalso; linarith) | norm_num

/-- C1 witness: the boundary values named by the spec, obtained from the
band theorem. -/
theorem C1_assign_score_bands_monotone_witness :
    assign_score (.val 1000) = 70 ∧ assign_score (.val 400) = 70 ∧
    assign_score (.val (99.999 : ℚ)) = 0 ∧ assign_score (.val 100) = 10 ∧
    assign_score (.val (199.999 : ℚ)) = 10 ∧ assign_score (.val 200) = 30 ∧
    assign_score (.val 300) = 50 ∧ assign_score (.val (-5)) = 0 ∧
    assign_score (.val 150) ≤ assign_score (.val 250) :=
  ⟨C1_assign_score_bands_monotone.1 1000 (by norm_num),
   C1_assign_score_bands_monotone.1 400 (by norm_num),
   C1_assign_score_bands_monotone.2.2.2.2.1 (99.999 : ℚ) (by norm_num),
   C1_assign_score_bands_monotone.2.2.2.1 100 (by norm_num) (by norm_num),
   C1_assign_score_bands_monotone.2.2.2.1 (199.999 : ℚ) (by norm_num) (by norm_num),
   C1_assign_score_bands_monotone.2.2.1 200 (by norm_num) (by norm_num),
   C1_assign_score_bands_monotone.2.1 300 (by norm_num) (by norm_num),
   C1_assign_score_bands_monotone.2.2.2.2.1 (-5) (by norm_num),
   C1_assign_score_bands_monotone.2.2.2.2.2.2.2 150 250 (by norm_num)⟩

/-- C3: evaluation of the normalizer.  The claim's present-string clauses
hold (comma split plus trim, empty and whitespace-only cells normalize to
""), but an ABSENT cell is a pandas NaN, `str(nan)` is "nan", and the
normalized address is the non-empty string "nan" — not "" as the claim
states — so the row is geocoded instead of short-circuiting. -/
theorem C3_normalizer_eval :
    address_to_search none = "nan" ∧
    address_to_search none ≠ "" ∧
    address_to_search (some "") = "" ∧
    address_to_search (some "   ") = "" ∧
    address_to_search (some "서울시 ○○구, 101동 202호") = "서울시 ○○구" := by
  exact ⟨by decide, by decide, by decide, by decide, by decide⟩

/-- C5: the geocoder classification.  Every HTTP outcome yields exactly one
of a coordinate pair (with error None) or an error message (with both
coordinates None), never both; a transport failure carries the
network-failure message, a falsy `documents` yields the not-found error, a
first result missing its `address`, `y` or `x` field yields the
malformed-response error, and a well-formed first result yields its
coordinates. -/
theorem C5_geocode_classification :
    (∀ r : HttpResult,
        (∃ y x, get_lat_lon_from_address r = (some y, some x, none)) ∨
        (∃ m, get_lat_lon_from_address r = (none, none, some m))) ∧
    (∀ (r : HttpResult) (y x : ℚ) (m : String),
        get_lat_lon_from_address r ≠ (some y, some x, some m)) ∧
    (∀ e, get_lat_lon_from_address (.failure e) =
        (none, none, some ("API 요청 실패: " ++ e))) ∧
    get_lat_lon_from_address (.success ⟨none⟩) = (none, none, some "주소를 찾을 수 없음") ∧
    get_lat_lon_from_address (.success ⟨some []⟩) = (none, none, some "주소를 찾을 수 없음") ∧
    (∀ rest, get_lat_lon_from_address (.success ⟨some (⟨none⟩ :: rest)⟩) =
        (none, none, some "잘못된 API 응답 형식")) ∧
    (∀ rest xo, get_lat_lon_from_address (.success ⟨some (⟨some ⟨none, xo⟩⟩ :: rest)⟩) =
        (none, none, some "잘못된 API 응답 형식")) ∧
    (∀ rest y, get_lat_lon_from_address (.success ⟨some (⟨some ⟨some y, none⟩⟩ :: rest)⟩) =
        (none, none, some "잘못된 API 응답 형식")) ∧
    (∀ rest y x, get_lat_lon_from_address (.success ⟨some (⟨some ⟨some y, some x⟩⟩ :: rest)⟩) =
        (some y, some x, none)) := by
  refine ⟨?_, ?_, fun e => rfl, rfl, rfl, fun rest => rfl, fun rest xo => rfl,
    fun rest y => rfl, fun rest y x => rfl⟩
  · intro r
    match r with
    | .failure e => exact Or.inr ⟨_, rfl⟩
    | .success ⟨none⟩ => exact Or.inr ⟨_, rfl⟩
    | .success ⟨some []⟩ => exact Or.inr ⟨_, rfl⟩
    | .success ⟨some (⟨none⟩ :: _)⟩ => exact Or.inr ⟨_, rfl⟩
    | .success ⟨some (⟨some ⟨none, _⟩⟩ :: _)⟩ => exact Or.inr ⟨_, rfl⟩
    | .success ⟨some (⟨some ⟨some _, none⟩⟩ :: _)⟩ => exact Or.inr ⟨_, rfl⟩
    | .success ⟨some (⟨some ⟨some y, some x⟩⟩ :: _)⟩ => exact Or.inl ⟨y, x, rfl⟩
  · intro r y x m
    match r with
    | .failure e => simp [get_lat_lon_from_address]
    | .success ⟨none⟩ => simp [get_lat_lon_from_address]
    | .success ⟨some []⟩ => simp [get_lat_lon_from_address]
    | .success ⟨some (⟨none⟩ :: _)⟩ => simp [get_lat_lon_from_address]
    | .success ⟨some (⟨some ⟨none, _⟩⟩ :: _)⟩ => simp [get_lat_lon_from_address]
    | .success ⟨some (⟨some ⟨some _, none⟩⟩ :: _)⟩ => simp [get_lat_lon_from_address]
    | .success ⟨some (⟨some ⟨some _, some _⟩⟩ :: _)⟩ => simp [get_lat_lon_from_address]

/-- C5 witness: the classification applied at concrete HTTP outcomes — a
timeout, a well-formed single result, and the never-both clause at the
empty result list. -/
theorem C5_geocode_classification_witness :
    get_lat_lon_from_address (.failure "timeout") =
      (none, none, some "API 요청 실패: timeout") ∧
    get_lat_lon_from_address (.success ⟨some [⟨some ⟨some 37, some 127⟩⟩]⟩) =
      (some 37, some 127, none) ∧
    get_lat_lon_from_address (.success ⟨some []⟩) ≠ (some 37, some 127, some "오류") :=
  ⟨C5_geocode_classification.2.2.1 "timeout",
   C5_geocode_classification.2.2.2.2.2.2.2.2 [] 37 127,
   C5_geocode_classification.2.1 (.success ⟨some []⟩) 37 127 "오류"⟩

/-- C6 counterexample: the coordinate (0, 126.8640144) is present, yet
`calculate_distance_from_school` returns `None` rather than the haversine
distance, because Python's `all(lat_lon)` treats the float 0.0 as falsy. -/
theorem C6_zero_latitude_counterexample :
    calculate_distance_from_school haversineKm (some (some 0, some (126.8640144 : ℚ))) ≠
      some (haversineKm school_coords (0, 126.8640144)) := by
  simp [calculate_distance_from_school]

/-- C6 amended: for a present coordinate whose latitude and longitude are
both non-zero, the calculator returns the haversine great-circle distance
from the fixed reference point (37.4973462, 126.8640144); it returns
absent when the input is absent, and also when either component is absent
or equal to zero (Python truthiness of `all(lat_lon)`). -/
theorem C6_distance_amended :
    (∀ la lo : ℚ, la ≠ 0 → lo ≠ 0 →
        calculate_distance_from_school haversineKm (some (some la, some lo)) =
          some (haversineKm school_coords (la, lo))) ∧
    calculate_distance_from_school haversineKm (none : Option (Option ℚ × Option ℚ)) = none ∧
    (∀ lo : ℚ, calculate_distance_from_school haversineKm (some (some 0, some lo)) = none) ∧
    (∀ la : ℚ, calculate_distance_from_school haversineKm (some (some la, some 0)) = none) ∧
    (∀ lo : Option ℚ, calculate_distance_from_school haversineKm (some (none, lo)) = none) ∧
    (∀ la : ℚ, calculate_distance_from_school haversineKm (some (some la, none)) = none) := by
  refine ⟨?_, rfl, ?_, ?_, fun lo => rfl, fun la => rfl⟩
  · intro la lo h1 h2
    simp [calculate_distance_from_school, h1, h2]
  · intro lo
    simp [calculate_distance_from_school]
  · intro la
    simp [calculate_distance_from_school]

/-- C6 witness: the amended statement applied at the non-zero coordinate
(37.5, 127). -/
theorem C6_distance_amended_witness :
    (37.5 : ℚ) ≠ 0 ∧ (127 : ℚ) ≠ 0 ∧
    calculate_distance_from_school haversineKm (some (some (37.5 : ℚ), some (127 : ℚ))) =
      some (haversineKm school_coords (37.5, 127)) :=
  ⟨by norm_num, by norm_num, C6_distance_amended.1 (37.5 : ℚ) 127 (by norm_num) (by norm_num)⟩

/-- C4 counterexample: starting from an empty cache, a call for address "A"
with credential "k1" followed by a call for the same address "A" with the
different credential "k2" is a cache miss — the second call performs one
network request, not zero, because `@st.cache_data` keys its cache on the
full argument tuple, credential included. -/
theorem C4_cross_credential_counterexample :
    (cachedGeocode net0 "A" "k2" (cachedGeocode net0 "A" "k1" ([] : Cache)).2.1).2.2 = 1 ∧
    (cachedGeocode net0 "A" "k2" (cachedGeocode net0 "A" "k1" ([] : Cache)).2.1).2.2 ≠ 0 := by
  exact ⟨by decide, by decide⟩

/-- C4 amended: the memo cache is keyed by the (address, credential) pair.
Two invocations with the same address AND the same credential issue exactly
one network request between them and return identical outcomes; an
invocation with the same address but a different credential is a cache
miss and issues its own network request. -/
theorem C4_cache_amended :
    (∀ (net : String → String → GeoTriple) (a k : String),
        (cachedGeocode net a k ([] : Cache)).2.2 = 1 ∧
        (cachedGeocode net a k (cachedGeocode net a k ([] : Cache)).2.1).2.2 = 0 ∧
        (cachedGeocode net a k (cachedGeocode net a k ([] : Cache)).2.1).1 =
          (cachedGeocode net a k ([] : Cache)).1) ∧
    (∀ (net : String → String → GeoTriple) (a k k' : String), k' ≠ k →
        (cachedGeocode net a k' (cachedGeocode net a k ([] : Cache)).2.1).2.2 = 1) := by
  constructor
  · intro net a k
    refine ⟨rfl, ?_, ?_⟩ <;> simp [cachedGeocode, cacheLookup]
  · intro net a k k' hk
    have hne : k ≠ k' := fun e => hk e.symm
    simp [cachedGeocode, cacheLookup, hne]

/-- C4 witness: the amended statement applied with distinct concrete
credentials "k1" and "k2". -/
theorem C4_cache_amended_witness :
    ("k2" : String) ≠ "k1" ∧
    (cachedGeocode net0 "A" "k2" (cachedGeocode net0 "A" "k1" ([] : Cache)).2.1).2.2 = 1 :=
  ⟨by decide, C4_cache_amended.2 net0 "A" "k1" "k2" (by decide)⟩

/-- C2: per-row processing.  An empty normalized address short-circuits to
the row error "주소 정보 없음" with absent coordinates and distance, score
0, no network request and an untouched cache; a failed geocode (any
non-empty error message from the network) records exactly that message
with absent fields and score 0; a resolved geocode records the
coordinates, the computed distance and the score assigned to it, with an
empty error message.  (The cache hypothesis says the memo cache agrees
with the network function, which holds for every cache the pipeline ever
builds.) -/
theorem C2_row_processing :
    (∀ (net : String → String → GeoTriple) (hav : ℚ × ℚ → ℚ × ℚ → ℚ)
        (key : String) (c : Cache) (cell : Option String),
        address_to_search cell = "" →
        rowStep net hav key c cell =
          ({ lat := none, lon := none, dist := none, err := "주소 정보 없음" }, c, 0) ∧
        scoreRow (rowStep net hav key c cell).1 =
          { lat := none, lon := none, dist := none, score := 0, err := "주소 정보 없음" }) ∧
    (∀ (net : String → String → GeoTriple) (hav : ℚ × ℚ → ℚ × ℚ → ℚ)
        (key : String) (c : Cache) (cell : Option String) (la lo : Option ℚ) (m : String),
        CacheSound net c → address_to_search cell ≠ "" → m ≠ "" →
        net (address_to_search cell) key = (la, lo, some m) →
        scoreRow (rowStep net hav key c cell).1 =
          { lat := none, lon := none, dist := none, score := 0, err := m }) ∧
    (∀ (net : String → String → GeoTriple) (hav : ℚ × ℚ → ℚ × ℚ → ℚ)
        (key : String) (c : Cache) (cell : Option String) (y x : ℚ),
        CacheSound net c → address_to_search cell ≠ "" →
        net (address_to_search cell) key = (some y, some x, none) →
        scoreRow (rowStep net hav key c cell).1 =
          { lat := some y, lon := some x,
            dist := calculate_distance_from_school hav (some (some y, some x)),
            score := assign_score
              (toScalar (calculate_distance_from_school hav (some (some y, some x)))),
            err := "" }) := by
  refine ⟨?_, ?_, ?_⟩
  · intro net hav key c cell h
    constructor
    · simp [rowStep, h]
    · simp [rowStep, h, scoreRow, toScalar, assign_score]
  · intro net hav key c cell la lo m hc ha hm hnet
    have hg := cachedGeocode_fst net (address_to_search cell) key hc
    have hme : m.isEmpty = false := by
      cases he : m.isEmpty
      · rfl
      · exact absurd ((String.isEmpty_iff m).mp he) hm
    simp [rowStep, ha, hg, hnet, strTruthy, hme, scoreRow, toScalar, assign_score]
  · intro net hav key c cell y x hc ha hnet
    have hg := cachedGeocode_fst net (address_to_search cell) key hc
    simp [rowStep, ha, hg, hnet, strTruthy, scoreRow]

/-- C2 witness: the three clauses applied at concrete rows — an empty cell,
a failing network, and a resolving network — each from the empty cache. -/
theorem C2_row_processing_witness :
    (address_to_search (some "") = "" ∧
      rowStep netF hav0 "key" ([] : Cache) (some "") =
        ({ lat := none, lon := none, dist := none, err := "주소 정보 없음" }, [], 0)) ∧
    scoreRow (rowStep netF hav0 "key" ([] : Cache) (some "서울")).1 =
      { lat := none, lon := none, dist := none, score := 0, err := "API 요청 실패: timeout" } ∧
    scoreRow (rowStep net0 hav0 "key" ([] : Cache) (some "서울")).1 =
      { lat := some 37, lon := some 127,
        dist := calculate_distance_from_school hav0 (some (some 37, some 127)),
        score := assign_score
          (toScalar (calculate_distance_from_school hav0 (some (some 37, some 127)))),
        err := "" } :=
  ⟨⟨by decide,
    (C2_row_processing.1 netF hav0 "key" [] (some "") (by decide)).1⟩,
   C2_row_processing.2.1 netF hav0 "key" [] (some "서울") none none "API 요청 실패: timeout"
     (cacheSound_nil netF) (by decide) (by decide) rfl,
   C2_row_processing.2.2 net0 hav0 "key" [] (some "서울") 37 127
     (cacheSound_nil net0) (by decide) rfl⟩

/-- C7: the final rounding step maps only the latitude, longitude and
distance fields through `round4` and leaves the score and error message
untouched; the score of every final row is `assign_score` of the
unrounded distance (the score column is computed at line 121, before the
rounding at lines 130-132).  The pipeline output is exactly the scored
rows mapped through the rounding step. -/
theorem C7_rounding_preserves_score :
    (∀ r : RowResult,
        (roundRow (scoreRow r)).score = (scoreRow r).score ∧
        (roundRow (scoreRow r)).score = assign_score (toScalar r.dist) ∧
        (roundRow (scoreRow r)).err = (scoreRow r).err ∧
        (roundRow (scoreRow r)).lat = r.lat.map round4 ∧
        (roundRow (scoreRow r)).lon = r.lon.map round4 ∧
        (roundRow (scoreRow r)).dist = r.dist.map round4) ∧
    (∀ (net : String → String → GeoTriple) (hav : ℚ × ℚ → ℚ × ℚ → ℚ)
        (key : String) (rows : List (Option String)), key ≠ "" →
        (runPipeline net hav key rows).1 =
          .ok (rows.map (fun cell => roundRow (scoreRow (pureRow net hav key cell))))) := by
  constructor
  · intro r
    refine ⟨rfl, rfl, rfl, rfl, rfl, rfl⟩
  · intro net hav key rows hk
    obtain ⟨h1, _⟩ := rowsLoop_spec net hav key rows.length rows 0 [] (cacheSound_nil net)
    simp only [runPipeline, if_neg hk]
    rw [h1]
    simp [List.map_map, Function.comp]

/-- C7 witness: the row-level clause at a concrete row and the pipeline
clause at a concrete one-row batch. -/
theorem C7_rounding_preserves_score_witness :
    (roundRow (scoreRow { lat := some 37, lon := some 127, dist := some 450, err := "" })).score =
      assign_score (toScalar (some (450 : ℚ))) ∧
    (("k" : String) ≠ "" ∧
      (runPipeline net0 hav0 "k" [some "서울"]).1 =
        .ok ([some "서울"].map (fun cell => roundRow (scoreRow (pureRow net0 hav0 "k" cell))))) :=
  ⟨(C7_rounding_preserves_score.1 { lat := some 37, lon := some 127, dist := some 450, err := "" }).2.1,
   by decide,
   C7_rounding_preserves_score.2 net0 hav0 "k" [some "서울"] (by decide)⟩

/-- C8: with an absent credential (Streamlit's text input yields the empty
string) the pipeline aborts at once: the result is the pipeline-level
error, no progress event is emitted, no network request is made and no
row result exists.  With any non-empty credential the run never aborts —
the result is always a full table — so the missing credential is the only
pipeline-level error of the core. -/
theorem C8_missing_credential_aborts :
    (∀ (net : String → String → GeoTriple) (hav : ℚ × ℚ → ℚ × ℚ → ℚ)
        (rows : List (Option String)),
        runPipeline net hav "" rows = (.error "API 키를 먼저 입력해야 합니다.", [], 0)) ∧
    (∀ (net : String → String → GeoTriple) (hav : ℚ × ℚ → ℚ × ℚ → ℚ)
        (key : String) (rows : List (Option String)), key ≠ "" →
        ∃ table, (runPipeline net hav key rows).1 = .ok table) := by
  constructor
  · intro net hav rows
    simp [runPipeline]
  · intro net hav key rows hk
    obtain ⟨h1, _⟩ := rowsLoop_spec net hav key rows.length rows 0 [] (cacheSound_nil net)
    refine ⟨((rows.map (pureRow net hav key)).map scoreRow).map roundRow, ?_⟩
    simp only [runPipeline, if_neg hk]
    rw [h1]

/-- C8 witness: a concrete aborted run and a concrete completed run. -/
theorem C8_missing_credential_aborts_witness :
    runPipeline net0 hav0 "" [some "서울"] = (.error "API 키를 먼저 입력해야 합니다.", [], 0) ∧
    ("k1" : String) ≠ "" ∧
    (∃ table, (runPipeline net0 hav0 "k1" [some "서울"]).1 = .ok table) :=
  ⟨C8_missing_credential_aborts.1 net0 hav0 [some "서울"],
   by decide,
   C8_missing_credential_aborts.2 net0 hav0 "k1" [some "서울"] (by decide)⟩

/-- C9: with a credential present, whatever the network does (failures
included) the batch never aborts: the output table has one row per input
row, in input order, each the processed image of its input cell; exactly
one progress event (completed, total) is emitted per row, the events are
(1, n), (2, n), ..., (n, n) with strictly increasing completed counts,
and the last event (when any row exists) is (n, n). -/
theorem C9_row_errors_never_abort :
    ∀ (net : String → String → GeoTriple) (hav : ℚ × ℚ → ℚ × ℚ → ℚ)
      (key : String) (rows : List (Option String)), key ≠ "" →
      (runPipeline net hav key rows).1 =
        .ok (rows.map (fun cell => roundRow (scoreRow (pureRow net hav key cell)))) ∧
      (runPipeline net hav key rows).2.1 =
        (List.range rows.length).map (fun j => (j + 1, rows.length)) ∧
      ((runPipeline net hav key rows).2.1).Pairwise (fun p q => p.1 < q.1) ∧
      (rows ≠ [] →
        ((runPipeline net hav key rows).2.1).getLast? = some (rows.length, rows.length)) := by
  intro net hav key rows hk
  obtain ⟨h1, h2⟩ := rowsLoop_spec net hav key rows.length rows 0 [] (cacheSound_nil net)
  have hev : (runPipeline net hav key rows).2.1 =
      (List.range rows.length).map (fun j => (j + 1, rows.length)) := by
    simp only [runPipeline, if_neg hk]
    rw [h2]
    exact List.map_congr_left fun j _ => by simp
  refine ⟨?_, hev, ?_, ?_⟩
  · simp only [runPipeline, if_neg hk]
    rw [h1]
    simp [List.map_map, Function.comp]
  · rw [hev]
    exact (List.pairwise_lt_range rows.length).map _ fun a b hab => by
      simpa using Nat.add_lt_add_right hab 1
  · intro hne
    rw [hev]
    obtain ⟨n, hn⟩ : ∃ n, rows.length = n + 1 :=
      ⟨rows.length - 1, by cases rows with
        | nil => exact absurd rfl hne
        | cons a l => simp⟩
    rw [hn, List.range_succ, List.map_append]
    simp

/-- C9 witness: a one-row batch under an always-failing network: the run
completes, the row carries the failure, and the single progress event is
(1, 1). -/
theorem C9_row_errors_never_abort_witness :
    ("k" : String) ≠ "" ∧
    (runPipeline netF hav0 "k" [some "서울"]).1 =
      .ok ([some "서울"].map (fun cell => roundRow (scoreRow (pureRow netF hav0 "k" cell)))) ∧
    (runPipeline netF hav0 "k" [some "서울"]).2.1 = [(1, 1)] ∧
    ((runPipeline netF hav0 "k" [some "서울"]).2.1).getLast? = some (1, 1) := by
  have h := C9_row_errors_never_abort netF hav0 "k" [some "서울"] (by decide)
  refine ⟨by decide, h.1, ?_, ?_⟩
  · rw [h.2.1]
    decide
  · rw [h.2.2.2 (by decide)]
    decide

/-- C10: the empty batch with a credential present completes without
error: the result is the empty table (whose rows, had there been any,
carry all five output columns by the shape of `OutRow`), no per-row
progress event is emitted, and no network request is made. -/
theorem C10_empty_batch :
    ∀ (net : String → String → GeoTriple) (hav : ℚ × ℚ → ℚ × ℚ → ℚ) (key : String),
      key ≠ "" →
      runPipeline net hav key ([] : List (Option String)) = (.ok [], [], 0) := by
  intro net hav key hk
  simp [runPipeline, hk, rowsLoop]

/-- C10 witness: the empty batch under a concrete credential and network. -/
theorem C10_empty_batch_witness :
    ("api" : String) ≠ "" ∧
    runPipeline net0 hav0 "api" ([] : List (Option String)) = (.ok [], [], 0) :=
  ⟨by decide, C10_empty_batch net0 hav0 "api" (by decide)⟩

end Dormitory
